import Mathlib

/-!
Shallow embedding of the interoptopus C# binding generator:
`crates/backend_csharp/src/interop.rs` (type model, marshalling classifier,
emission predicates, structural writer) and `proc_macros/src/types.rs`
(attribute-driven field visibility). Rust enums become inductives, the
`Interop` builder struct becomes a structure, and the writer pass is
modelled as a pure function producing the ordered list of emission events.
-/

namespace CSharpBackend

/-- Metadata attached to functions, constants and named types: the owning
module (namespace id) and documentation text. -/
structure Meta where
  module : String
  docs : String
  deriving DecidableEq, Repr

/-- Primitive FFI types (`PrimitiveType` in the interoptopus type model). -/
inductive Prim where
  | void | bool | u8 | u16 | u32 | u64 | i8 | i16 | i32 | i64 | f32 | f64
  deriving DecidableEq, Repr

mutual

/-- The `Type` sum type of the interoptopus language model. A `FnPointer`
carries its signature inline: the ordered `(name, type)` parameters and the
return type. `opaqueType` stands for the `Opaque` variant of the source. -/
inductive Ty where
  | primitive : Prim → Ty
  | array : Ty → Nat → Ty
  | enum : Meta → Ty
  | opaqueType : Meta → Ty
  | composite : Meta → List (String × Ty) → Ty
  | fnPointer : List (String × Ty) → Ty → Ty
  | readPointer : Ty → Ty
  | readWritePointer : Ty → Ty
  | pattern : TypePattern → Ty

/-- The `TypePattern` sum type. `namedCallback`/`asyncCallback` wrap the
signature of their underlying fn pointer (parameters and return type). -/
inductive TypePattern where
  | cstrPointer : TypePattern
  | apiVersion : TypePattern
  | slice : Meta → Ty → TypePattern
  | sliceMut : Meta → Ty → TypePattern
  | option : Meta → Ty → TypePattern
  | result : Meta → Ty → Ty → TypePattern
  | bool : TypePattern
  | cchar : TypePattern
  | namedCallback : Meta → List (String × Ty) → Ty → TypePattern
  | asyncCallback : Meta → List (String × Ty) → Ty → TypePattern
  | vec : Meta → Ty → TypePattern
  | utf8String : TypePattern

end

/-- `Interop::should_emit_marshaller`: true exactly for `Array` and
`Composite` (the catch-all arm of the source match returns false). -/
def should_emit_marshaller : Ty → Bool
  | .array _ _ => true
  | .composite _ _ => true
  | _ => false

mutual

/-- `Interop::is_custom_marshalled`: `should_emit_marshaller` or the
delegate check on a fn-pointer / named-callback signature, or a
slice / mutable-slice pattern. The call of the source to
`has_custom_marshalled_delegate` on the signature is inlined here (any
parameter passes `delegate_entry`, or the return type does); the named
wrapper `has_custom_marshalled_delegate` is defined right below. -/
def is_custom_marshalled (x : Ty) : Bool :=
  should_emit_marshaller x ||
    match x with
    | .fnPointer ps r => any_delegate_entry ps || delegate_entry r
    | .pattern y =>
      match y with
      | .namedCallback _ ps r => any_delegate_entry ps || delegate_entry r
      | .slice _ _ => true
      | .sliceMut _ _ => true
      | _ => false
    | _ => false

/-- The `any(is_custom_marshalled)` walk over a parameter list: the source
collects `params.map(the_type)`, pushes `rval` and runs `any`; here the
parameter walk is split off structurally. -/
def any_is_custom_marshalled : List (String × Ty) → Bool
  | [] => false
  | (_, t) :: rest => is_custom_marshalled t || any_is_custom_marshalled rest

/-- The per-entry closure inside `Interop::has_custom_marshalled_delegate`:
only fn pointers and named callbacks are inspected (their signatures via
`has_custom_marshalled_types`, inlined), everything else is false. -/
def delegate_entry : Ty → Bool
  | .fnPointer ps r => any_is_custom_marshalled ps || is_custom_marshalled r
  | .pattern (.namedCallback _ ps r) => any_is_custom_marshalled ps || is_custom_marshalled r
  | _ => false

/-- The `any(delegate_entry)` walk over a parameter list. -/
def any_delegate_entry : List (String × Ty) → Bool
  | [] => false
  | (_, t) :: rest => delegate_entry t || any_delegate_entry rest

end

/-- `Interop::has_custom_marshalled_types` over a signature (parameters
plus return type): some type among `params.map(the_type) ++ [rval]`
satisfies `is_custom_marshalled`. -/
def has_custom_marshalled_types (ps : List (String × Ty)) (r : Ty) : Bool :=
  any_is_custom_marshalled ps || is_custom_marshalled r

/-- `Interop::has_custom_marshalled_delegate` over a signature (parameters
plus return type): some type among `params.map(the_type) ++ [rval]`
satisfies the delegate-entry closure. -/
def has_custom_marshalled_delegate (ps : List (String × Ty)) (r : Ty) : Bool :=
  any_delegate_entry ps || delegate_entry r

/-- The types of a signature in source order: the list
`params.map(the_type)` of the source with `rval` pushed at the end. -/
def sig_types (ps : List (String × Ty)) (r : Ty) : List Ty :=
  ps.map Prod.snd ++ [r]

/-- The `WriteTypes` write-scope policy. -/
inductive WriteTypes where
  | Namespace
  | NamespaceAndInteroptopusGlobal
  | All
  deriving DecidableEq, Repr

/-- `WriteTypes::write_interoptopus_globals`. -/
def WriteTypes.write_interoptopus_globals : WriteTypes → Bool
  | .Namespace => false
  | .NamespaceAndInteroptopusGlobal => true
  | .All => true

/-- The `Visibility` access-modifier policy for generated C# types. -/
inductive Visibility where
  | AsDeclared
  | ForcePublic
  | ForceInternal
  deriving DecidableEq, Repr

/-- `Visibility::to_access_modifier`. The source carries a TODO noting that
`AsDeclared` should ultimately use the declared visibility but for now
copies the previous behavior, which is to make everything public. -/
def Visibility.to_access_modifier : Visibility → String
  | .AsDeclared => "public"
  | .ForcePublic => "public"
  | .ForceInternal => "internal"

/-- A function of the inventory: its meta and its signature (the constant
value of the signature is its parameters plus return type). -/
structure Function where
  meta : Meta
  params : List (String × Ty)
  rval : Ty

/-- A constant of the inventory; its literal value plays no role in the
predicates embedded here, only its meta does. -/
structure Constant where
  meta : Meta

/-- Key lookup in a string-keyed table: `NamespaceMappings::get` and the
`HashMap::get` of the proc macro both embed as association-list lookup. -/
def table_get {α : Type} : List (String × α) → String → Option α
  | [], _ => none
  | (k, v) :: rest, key => if k = key then some v else table_get rest key

/-- The `Interop` generator configuration plus the inventory slices the
embedded functions read (`inventory.functions()` / `inventory.constants()`).
The source field `class` is spelled `cls` (Lean keyword). -/
structure Interop where
  file_header_comment : String
  cls : String
  class_constants : Option String
  dll_name : String
  namespace_mappings : List (String × String)
  namespace_id : String
  visibility_types : Visibility
  write_types : WriteTypes
  debug : Bool
  doc_hints : Bool
  functions : List Function
  constants : List Constant

/-- Modelled from the spec: the typed error kinds of spec §7
(`MissingNamespaceMapping`, `InvalidVisibilityValue`) exist nowhere in the
sources, which abort via `panic!` instead. `panicMsg` embeds such a panic
with its message; the two typed constructors are present only so that
claims about typed error results are statable against the code. -/
inductive GenError where
  | panicMsg : String → GenError
  | missingNamespaceMapping : String → GenError
  | invalidVisibilityValue : String → GenError
  deriving DecidableEq, Repr

/-- `Interop::namespace_for_id`: looks the id up in the namespace mappings
and, when there is no entry, panics (`unwrap_or_else(|| panic!(..))`,
embedded as a `GenError.panicMsg` outcome) with the message of the source. -/
def namespace_for_id (cfg : Interop) (id : String) : Except GenError String :=
  match table_get cfg.namespace_mappings id with
  | some ns => .ok ns
  | none => .error (.panicMsg
      ("Found a namespace not mapped \x27" ++ id ++
       "\x27. You should specify this one in the config."))

/-- `Interop::should_emit_by_meta`: the owning module of the item equals the
namespace id currently being written. -/
def should_emit_by_meta (cfg : Interop) (m : Meta) : Bool :=
  m.module == cfg.namespace_id

/-- `Interop::has_emittable_functions`. -/
def has_emittable_functions (cfg : Interop) (functions : List Function) : Bool :=
  functions.any fun x => should_emit_by_meta cfg x.meta

/-- `Interop::has_emittable_constants`. -/
def has_emittable_constants (cfg : Interop) (constants : List Constant) : Bool :=
  constants.any fun x => should_emit_by_meta cfg x.meta

/-- Modelled from the spec: `is_global_type` lives in the interoptopus
backend crate, outside the sources at hand; the spec says only that it
recognizes cross-cutting global types, so it stays abstract here, an
explicit predicate argument threaded into `should_emit_by_type`. -/
def GlobalTypePred : Type := Ty → Bool

/-- `Interop::should_emit_by_type`: whether a standalone type definition is
emitted for `t` into the current file. -/
def should_emit_by_type (is_global_type : GlobalTypePred) (cfg : Interop) (t : Ty) : Bool :=
  if cfg.write_types = WriteTypes.All then true
  else if is_global_type t then decide (cfg.write_types = WriteTypes.NamespaceAndInteroptopusGlobal)
  else
    match t with
    | .primitive _ => decide (cfg.write_types = WriteTypes.NamespaceAndInteroptopusGlobal)
    | .array _ _ => false
    | .enum m => should_emit_by_meta cfg m
    | .opaqueType m => should_emit_by_meta cfg m
    | .composite m _ => should_emit_by_meta cfg m
    | .fnPointer _ _ => true
    | .readPointer _ => false
    | .readWritePointer _ => false
    | .pattern p =>
      match p with
      | .cstrPointer => true
      | .apiVersion => true
      | .slice m _ => should_emit_by_meta cfg m
      | .sliceMut m _ => should_emit_by_meta cfg m
      | .option m _ => should_emit_by_meta cfg m
      | .result m _ _ => should_emit_by_meta cfg m
      | .bool => decide (cfg.write_types = WriteTypes.NamespaceAndInteroptopusGlobal)
      | .cchar => false
      | .namedCallback m _ _ => should_emit_by_meta cfg m
      | .asyncCallback m _ _ => should_emit_by_meta cfg m
      | .vec m _ => should_emit_by_meta cfg m
      | .utf8String => false

/-- The standalone-type emission rule as the spec words it in §4.2, written
independently of the source dispatch to compare the two: "true iff globals
included" is the write-scope-includes-globals reading
(`write_interoptopus_globals`), "follow their module" is the
belongs-to-current-namespace test. -/
def should_emit_by_type_spec (is_global_type : GlobalTypePred) (cfg : Interop) (t : Ty) : Bool :=
  if cfg.write_types = WriteTypes.All then true
  else if is_global_type t then cfg.write_types.write_interoptopus_globals
  else
    match t with
    | .primitive _ => cfg.write_types.write_interoptopus_globals
    | .array _ _ => false
    | .enum m => should_emit_by_meta cfg m
    | .opaqueType m => should_emit_by_meta cfg m
    | .composite m _ => should_emit_by_meta cfg m
    | .fnPointer _ _ => true
    | .readPointer _ => false
    | .readWritePointer _ => false
    | .pattern p =>
      match p with
      | .cstrPointer => true
      | .apiVersion => true
      | .slice m _ => should_emit_by_meta cfg m
      | .sliceMut m _ => should_emit_by_meta cfg m
      | .option m _ => should_emit_by_meta cfg m
      | .result m _ _ => should_emit_by_meta cfg m
      | .bool => cfg.write_types.write_interoptopus_globals
      | .cchar => false
      | .namedCallback m _ _ => should_emit_by_meta cfg m
      | .asyncCallback m _ _ => should_emit_by_meta cfg m
      | .vec m _ => should_emit_by_meta cfg m
      | .utf8String => false

/-- Modelled from the spec: the writer sub-functions `write_all` calls
(imports, class context, constants, ...) live in sibling modules outside
the sources at hand; each call is modelled as one opaque emission event,
so `write_all` becomes the ordered event list the sequence of spec §4.4
talks about. Newline-only writes are not events. -/
inductive Event where
  | fileHeader
  | imports
  | namespaceOpen
  | namespaceClose
  | classOpen : String → Event
  | classClose : String → Event
  | nativeLibString
  | abiGuard
  | asyncTrampolineInitializers
  | constants
  | functions
  | typeDefinitions
  | patterns
  | builtins
  deriving DecidableEq, Repr

/-- `Interop::write_all` as its ordered list of emission events: header,
imports, then inside the namespace context either one shared class context
(when `class_constants` is unset or equals `class`) holding native-lib
string, ABI guard, async trampoline initializers, constants and functions,
or two split class contexts (constants class: constants only; functions
class: native-lib string, ABI guard, functions); then type definitions,
patterns and builtins. A class context is skipped when it would hold no
emittable items. In the split branch the source unwraps `class_constants`,
which there is necessarily `Some` (`None` takes the shared branch); the
`getD` default of the embedding is that unreachable case. -/
def write_all (cfg : Interop) : List Event :=
  [Event.fileHeader, Event.imports] ++
  [Event.namespaceOpen] ++
  (if cfg.class_constants = none ∨ cfg.class_constants = some cfg.cls then
    if has_emittable_functions cfg cfg.functions || has_emittable_constants cfg cfg.constants then
      [Event.classOpen cfg.cls, Event.nativeLibString, Event.abiGuard,
       Event.asyncTrampolineInitializers, Event.constants, Event.functions,
       Event.classClose cfg.cls]
    else []
  else
    (if has_emittable_constants cfg cfg.constants then
      [Event.classOpen (cfg.class_constants.getD cfg.cls), Event.constants,
       Event.classClose (cfg.class_constants.getD cfg.cls)]
    else []) ++
    (if has_emittable_functions cfg cfg.functions then
      [Event.classOpen cfg.cls, Event.nativeLibString, Event.abiGuard, Event.functions,
       Event.classClose cfg.cls]
    else [])) ++
  [Event.typeDefinitions, Event.patterns, Event.builtins] ++
  [Event.namespaceClose]

/-- Rust field visibility as the proc macro sees it: the source matches
`Visibility::Public(_)` against everything else. -/
inductive FieldVis where
  | publicVis
  | otherVis
  deriving DecidableEq, Repr

/-- `interoptopus::lang::c::Visibility`, the visibility token the proc
macro emits for a field. -/
inductive LangVisibility where
  | Public
  | Private
  deriving DecidableEq, Repr

/-- The `#[ffi_type]` attribute set of the proc macro; of its fields only
the `visibility` override map (field name → requested visibility string, a
`HashMap` embedded as an association list) is read by
`visibility_for_field`. -/
structure Attributes where
  visibility : List (String × String)
  deriving DecidableEq, Repr

/-- One override arm inside `Attributes::visibility_for_field`: the match
on the override string maps "public" and "private" to the corresponding
visibility token, anything else panics with the message of the source
(embedded as a `GenError.panicMsg` outcome). -/
def parse_visibility_override (x : String) : Except GenError LangVisibility :=
  if x = "public" then .ok .Public
  else if x = "private" then .ok .Private
  else .error (.panicMsg "Visibility must be `public` or `private`")

/-- The second `if let` block of `Attributes::visibility_for_field`: when
the "_all" key is present its override replaces the value accumulated so
far, with the same panic on a bad string. -/
def apply_all_override (attrs : Attributes) (rval : LangVisibility) :
    Except GenError LangVisibility :=
  match table_get attrs.visibility "_all" with
  | some x => parse_visibility_override x
  | none => .ok rval

/-- `Attributes::visibility_for_field`: start from the declared Rust field
visibility, apply the per-field override, then the "_all" override; an
override string other than "public"/"private" panics at the point it is
examined, exactly as the two sequential `if let` blocks of the source do. -/
def visibility_for_field (attrs : Attributes) (field_vis : FieldVis) (name : String) :
    Except GenError LangVisibility :=
  let declared : LangVisibility :=
    match field_vis with
    | .publicVis => LangVisibility.Public
    | .otherVis => LangVisibility.Private
  match table_get attrs.visibility name with
  | some x =>
    match parse_visibility_override x with
    | .error e => .error e
    | .ok v => apply_all_override attrs v
  | none => apply_all_override attrs declared

/-- The `Default for Interop` impl of the source: class "Interop", no separate
constants class, dll "library", the default namespace mapping (empty id to
"My.Company"), empty namespace id, as-declared visibility, the
namespace-plus-globals write scope, an empty inventory. The header text is
abbreviated; its contents play no role in any predicate. -/
def default_interop : Interop :=
  { file_header_comment := "// <auto-generated>"
    cls := "Interop"
    class_constants := none
    dll_name := "library"
    namespace_mappings := [("", "My.Company")]
    namespace_id := ""
    visibility_types := Visibility.AsDeclared
    write_types := WriteTypes.NamespaceAndInteroptopusGlobal
    debug := false
    doc_hints := true
    functions := []
    constants := [] }

/-- A minimal function owned by the default (empty) namespace id. -/
def void_function : Function :=
  { meta := { module := "", docs := "" }, params := [], rval := Ty.primitive Prim.void }

/-- Shared-scaffold configuration: the default configuration (no distinct
constants class) with one emittable function. -/
def shared_interop : Interop :=
  { default_interop with functions := [void_function] }

/-- Split-scaffold configuration: a distinct constants class name and one
emittable function. -/
def split_interop : Interop :=
  { default_interop with class_constants := some "Constants", functions := [void_function] }

theorem any_is_custom_marshalled_eq_any (ps : List (String × Ty)) :
    any_is_custom_marshalled ps = (ps.map Prod.snd).any is_custom_marshalled := by
  induction ps with
  | nil => rfl
  | cons p rest ih =>
    cases p
    simp [any_is_custom_marshalled, ih]

theorem any_delegate_entry_eq_any (ps : List (String × Ty)) :
    any_delegate_entry ps = (ps.map Prod.snd).any delegate_entry := by
  induction ps with
  | nil => rfl
  | cons p rest ih =>
    cases p
    simp [any_delegate_entry, ih]

theorem has_custom_marshalled_types_eq_any (ps : List (String × Ty)) (r : Ty) :
    has_custom_marshalled_types ps r = (sig_types ps r).any is_custom_marshalled := by
  simp [has_custom_marshalled_types, sig_types, any_is_custom_marshalled_eq_any]

theorem has_custom_marshalled_delegate_eq_any (ps : List (String × Ty)) (r : Ty) :
    has_custom_marshalled_delegate ps r = (sig_types ps r).any delegate_entry := by
  simp [has_custom_marshalled_delegate, sig_types, any_delegate_entry_eq_any]

theorem is_custom_marshalled_fnPointer (ps : List (String × Ty)) (r : Ty) :
    is_custom_marshalled (Ty.fnPointer ps r) = has_custom_marshalled_delegate ps r := rfl

theorem is_custom_marshalled_namedCallback (m : Meta) (ps : List (String × Ty)) (r : Ty) :
    is_custom_marshalled (Ty.pattern (.namedCallback m ps r)) = has_custom_marshalled_delegate ps r := rfl

/-- C1 counterexample: a Composite parameter sitting directly in a
fn-pointer signature requires marshalling, yet the enclosing fn pointer
(and a named callback wrapping the same signature) is not classified
custom-marshalled, and the delegate check on the signature is false — the
claimed monotonicity fails for marshalling-requiring leaves that are not
themselves delegates. -/
theorem C1_composite_param_not_propagated :
    should_emit_marshaller (Ty.composite ⟨"m", ""⟩ []) = true
    ∧ is_custom_marshalled
        (Ty.fnPointer [("a", Ty.composite ⟨"m", ""⟩ [])] (Ty.primitive Prim.void)) = false
    ∧ is_custom_marshalled
        (Ty.pattern (.namedCallback ⟨"m", ""⟩
          [("a", Ty.composite ⟨"m", ""⟩ [])] (Ty.primitive Prim.void))) = false
    ∧ has_custom_marshalled_delegate
        [("a", Ty.composite ⟨"m", ""⟩ [])] (Ty.primitive Prim.void) = false := by
  decide

/-- C1 (amended): monotonicity holds in the delegate-shaped cases — when
some parameter or the return type of a signature is itself a fn pointer or
named callback whose own signature contains a custom-marshalled type
(`delegate_entry`), the delegate check and the classification of the
enclosing fn pointer and named callback are true; and a Composite
enclosing any nested types is always custom-marshalled. -/
theorem C1_delegate_monotonicity (m : Meta) (fs ps : List (String × Ty)) (r : Ty)
    (h : ∃ t ∈ sig_types ps r, delegate_entry t = true) :
    has_custom_marshalled_delegate ps r = true
    ∧ is_custom_marshalled (Ty.fnPointer ps r) = true
    ∧ is_custom_marshalled (Ty.pattern (.namedCallback m ps r)) = true
    ∧ is_custom_marshalled (Ty.composite m fs) = true := by
  have hd : has_custom_marshalled_delegate ps r = true := by
    rw [has_custom_marshalled_delegate_eq_any]
    rcases h with ⟨t, ht, hdt⟩
    exact List.any_eq_true.mpr ⟨t, ht, hdt⟩
  refine ⟨hd, ?_, ?_, ?_⟩
  · rw [is_custom_marshalled_fnPointer]
    exact hd
  · rw [is_custom_marshalled_namedCallback]
    exact hd
  · rfl

/-- C1 witness: the amended monotonicity at a concrete signature whose one
parameter is a fn pointer taking a Composite. -/
theorem C1_delegate_monotonicity_witness :
    has_custom_marshalled_delegate
        [("cb", Ty.fnPointer [("a", Ty.composite ⟨"m", ""⟩ [])] (Ty.primitive Prim.void))]
        (Ty.primitive Prim.void) = true
    ∧ is_custom_marshalled
        (Ty.fnPointer
          [("cb", Ty.fnPointer [("a", Ty.composite ⟨"m", ""⟩ [])] (Ty.primitive Prim.void))]
          (Ty.primitive Prim.void)) = true
    ∧ is_custom_marshalled
        (Ty.pattern (.namedCallback ⟨"m", ""⟩
          [("cb", Ty.fnPointer [("a", Ty.composite ⟨"m", ""⟩ [])] (Ty.primitive Prim.void))]
          (Ty.primitive Prim.void))) = true
    ∧ is_custom_marshalled (Ty.composite ⟨"m", ""⟩ []) = true :=
  C1_delegate_monotonicity ⟨"m", ""⟩ []
    [("cb", Ty.fnPointer [("a", Ty.composite ⟨"m", ""⟩ [])] (Ty.primitive Prim.void))]
    (Ty.primitive Prim.void)
    ⟨Ty.fnPointer [("a", Ty.composite ⟨"m", ""⟩ [])] (Ty.primitive Prim.void),
      by simp [sig_types], by decide⟩

/-- C2 counterexample: with the default configuration (module id "geo"
unmapped), namespace resolution yields the embedded panic outcome of the
source — not a typed `MissingNamespaceMapping` result. -/
theorem C2_missing_mapping_panic_not_typed_error :
    namespace_for_id default_interop "geo"
        = Except.error (GenError.panicMsg
            "Found a namespace not mapped \x27geo\x27. You should specify this one in the config.")
    ∧ namespace_for_id default_interop "geo"
        ≠ Except.error (GenError.missingNamespaceMapping "geo") := by
  refine ⟨rfl, ?_⟩
  intro hcontra
  exact absurd (Except.error.inj hcontra) (by decide)

/-- C2 (amended): whenever the owning module id of an item has no entry in
the namespace-mapping table, `namespace_for_id` aborts generation with the
panic of the source (message naming the id); no typed error result is
produced. -/
theorem C2_unmapped_namespace_panics (cfg : Interop) (id : String)
    (h : table_get cfg.namespace_mappings id = none) :
    namespace_for_id cfg id = Except.error (GenError.panicMsg
      ("Found a namespace not mapped \x27" ++ id ++
       "\x27. You should specify this one in the config.")) := by
  simp [namespace_for_id, h]

/-- C2 witness: the amended statement at the default configuration and the
unmapped id "geo". -/
theorem C2_unmapped_namespace_panics_witness :
    namespace_for_id default_interop "geo"
      = Except.error (GenError.panicMsg
          "Found a namespace not mapped \x27geo\x27. You should specify this one in the config.") :=
  C2_unmapped_namespace_panics default_interop "geo" (by decide)

/-- C3 counterexample: in a split-classes configuration (distinct
constants-class name) with an emittable function, the async trampoline
initializer table is not emitted at all — refuting the claim that it
appears inside the functions class scaffold in both configurations. -/
theorem C3_split_mode_omits_async_trampolines :
    split_interop.class_constants = some "Constants"
    ∧ split_interop.cls = "Interop"
    ∧ has_emittable_functions split_interop split_interop.functions = true
    ∧ Event.asyncTrampolineInitializers ∉ write_all split_interop := by
  decide

/-- C3 (amended): the emission sequence of `write_all`. In the shared
configuration (constants class unset or equal to the functions class) with
at least one emittable function or constant, the order is file header,
imports, namespace scaffold, class scaffold, native-library linkage, ABI
guard, async trampoline initializers, constants, functions, type
definitions, patterns, builtins. In the split configuration the constants
scaffold holds the constants and the functions scaffold holds the
native-library linkage, the ABI guard and the functions (each scaffold
skipped when empty), and the async trampoline initializer table is never
emitted. -/
theorem C3_write_all_emission_sequence (cfg : Interop) :
    ((cfg.class_constants = none ∨ cfg.class_constants = some cfg.cls) →
      (has_emittable_functions cfg cfg.functions
        || has_emittable_constants cfg cfg.constants) = true →
      write_all cfg =
        [Event.fileHeader, Event.imports, Event.namespaceOpen,
         Event.classOpen cfg.cls, Event.nativeLibString, Event.abiGuard,
         Event.asyncTrampolineInitializers, Event.constants, Event.functions,
         Event.classClose cfg.cls, Event.typeDefinitions, Event.patterns,
         Event.builtins, Event.namespaceClose])
    ∧ (¬ (cfg.class_constants = none ∨ cfg.class_constants = some cfg.cls) →
        (∀ cc : String, cfg.class_constants = some cc →
          write_all cfg =
            [Event.fileHeader, Event.imports, Event.namespaceOpen] ++
            (if has_emittable_constants cfg cfg.constants then
              [Event.classOpen cc, Event.constants, Event.classClose cc] else []) ++
            (if has_emittable_functions cfg cfg.functions then
              [Event.classOpen cfg.cls, Event.nativeLibString, Event.abiGuard,
               Event.functions, Event.classClose cfg.cls] else []) ++
            [Event.typeDefinitions, Event.patterns, Event.builtins, Event.namespaceClose])
        ∧ Event.asyncTrampolineInitializers ∉ write_all cfg) := by
  constructor
  · intro hshared hany
    simp [write_all, if_pos hshared, hany]
  · intro hsplit
    constructor
    · intro cc hcc
      have hne : ¬ (cc = cfg.cls) := by
        intro he
        exact hsplit (Or.inr (by rw [hcc, he]))
      simp [write_all, hcc, hne]
    · cases hA : has_emittable_constants cfg cfg.constants <;>
        cases hB : has_emittable_functions cfg cfg.functions <;>
          simp [write_all, if_neg hsplit, hA, hB]

/-- C4: `is_custom_marshalled` is true exactly for Array and Composite
(the `needs_marshaller` types), fn pointers whose signature passes the
delegate check, named callbacks wrapping such a signature, and the Slice
and SliceMut patterns; false for every other type. -/
theorem C4_is_custom_marshalled_characterization (t : Ty) :
    is_custom_marshalled t = true ↔
      ((∃ e n, t = Ty.array e n) ∨ (∃ m fs, t = Ty.composite m fs)
       ∨ (∃ ps r, t = Ty.fnPointer ps r ∧ has_custom_marshalled_delegate ps r = true)
       ∨ (∃ m ps r, t = Ty.pattern (.namedCallback m ps r) ∧ has_custom_marshalled_delegate ps r = true)
       ∨ (∃ m e, t = Ty.pattern (.slice m e))
       ∨ (∃ m e, t = Ty.pattern (.sliceMut m e))) := by
  cases t with
  | primitive x => simp [is_custom_marshalled, should_emit_marshaller]
  | array e n => simp [is_custom_marshalled, should_emit_marshaller]
  | enum m => simp [is_custom_marshalled, should_emit_marshaller]
  | opaqueType m => simp [is_custom_marshalled, should_emit_marshaller]
  | composite m fs => simp [is_custom_marshalled, should_emit_marshaller]
  | readPointer x => simp [is_custom_marshalled, should_emit_marshaller]
  | readWritePointer x => simp [is_custom_marshalled, should_emit_marshaller]
  | fnPointer ps r =>
    simp [is_custom_marshalled, should_emit_marshaller, has_custom_marshalled_delegate]
    constructor
    · intro h
      exact ⟨ps, r, ⟨rfl, rfl⟩, h⟩
    · rintro ⟨ps1, r1, ⟨h1, h2⟩, h⟩
      subst h1
      subst h2
      exact h
  | pattern p =>
    cases p with
    | cstrPointer => simp [is_custom_marshalled, should_emit_marshaller]
    | apiVersion => simp [is_custom_marshalled, should_emit_marshaller]
    | slice m e => simp [is_custom_marshalled, should_emit_marshaller]
    | sliceMut m e => simp [is_custom_marshalled, should_emit_marshaller]
    | option m e => simp [is_custom_marshalled, should_emit_marshaller]
    | result m a b => simp [is_custom_marshalled, should_emit_marshaller]
    | bool => simp [is_custom_marshalled, should_emit_marshaller]
    | cchar => simp [is_custom_marshalled, should_emit_marshaller]
    | asyncCallback m ps r => simp [is_custom_marshalled, should_emit_marshaller]
    | vec m e => simp [is_custom_marshalled, should_emit_marshaller]
    | utf8String => simp [is_custom_marshalled, should_emit_marshaller]
    | namedCallback m ps r =>
      simp [is_custom_marshalled, should_emit_marshaller, has_custom_marshalled_delegate]
      constructor
      · intro h
        exact ⟨m, ps, r, ⟨rfl, rfl, rfl⟩, h⟩
      · rintro ⟨m1, ps1, r1, ⟨hm, h1, h2⟩, h⟩
        subst h1
        subst h2
        exact h

/-- C5: `should_emit_by_type` agrees with the per-variant dispatch table of
the spec (as `should_emit_by_type_spec`) for every global-type predicate,
configuration and type: everything under write-scope All; globals rule for
recognized global types, Primitive and Bool; module rule for Enum, Opaque,
Composite, Slice, SliceMut, Option, Result, NamedCallback, AsyncCallback
and Vec; always for FnPointer, CStrPointer and APIVersion; never for
Array, the raw pointers, CChar and Utf8String. -/
theorem C5_should_emit_by_type_matches_spec (g : GlobalTypePred) (cfg : Interop) (t : Ty) :
    should_emit_by_type g cfg t = should_emit_by_type_spec g cfg t := by
  by_cases hAll : cfg.write_types = WriteTypes.All
  · simp [should_emit_by_type, should_emit_by_type_spec, hAll]
  · have hwig : cfg.write_types.write_interoptopus_globals
        = decide (cfg.write_types = WriteTypes.NamespaceAndInteroptopusGlobal) := by
      cases hw : cfg.write_types <;> simp_all [WriteTypes.write_interoptopus_globals]
    unfold should_emit_by_type should_emit_by_type_spec
    simp only [if_neg hAll, hwig]

/-- C6 counterexample: a visibility override string that is neither
"public" nor "private" makes field-visibility processing end in the
embedded panic outcome of the source — not in a typed
`InvalidVisibilityValue` result. -/
theorem C6_visibility_panic_not_typed_error :
    visibility_for_field ⟨[("x", "frob")]⟩ FieldVis.publicVis "x"
        = Except.error (GenError.panicMsg "Visibility must be `public` or `private`")
    ∧ visibility_for_field ⟨[("x", "frob")]⟩ FieldVis.publicVis "x"
        ≠ Except.error (GenError.invalidVisibilityValue "frob") := by
  refine ⟨rfl, ?_⟩
  intro hcontra
  exact absurd (Except.error.inj hcontra) (by decide)

/-- C6 (amended): whenever the per-field visibility override is any string
other than "public" or "private", `visibility_for_field` aborts with the
panic of the source; no typed error result is produced. -/
theorem C6_invalid_visibility_panics (attrs : Attributes) (fv : FieldVis) (name x : String)
    (h : table_get attrs.visibility name = some x)
    (hx1 : x ≠ "public") (hx2 : x ≠ "private") :
    visibility_for_field attrs fv name
      = Except.error (GenError.panicMsg "Visibility must be `public` or `private`") := by
  simp [visibility_for_field, h, parse_visibility_override, hx1, hx2]

/-- C6 witness: the amended statement at a concrete attribute set mapping
field "y" to the invalid override "internal". -/
theorem C6_invalid_visibility_panics_witness :
    visibility_for_field ⟨[("y", "internal")]⟩ FieldVis.otherVis "y"
      = Except.error (GenError.panicMsg "Visibility must be `public` or `private`") :=
  C6_invalid_visibility_panics ⟨[("y", "internal")]⟩ FieldVis.otherVis "y" "internal"
    (by decide) (by decide) (by decide)

/-- C7: `needs_marshaller` (the `should_emit_marshaller` of the source) is
true exactly for the Array and Composite variants and false for every
other variant. -/
theorem C7_needs_marshaller_iff_array_or_composite (t : Ty) :
    should_emit_marshaller t = true ↔
      (∃ e n, t = Ty.array e n) ∨ (∃ m fs, t = Ty.composite m fs) := by
  cases t <;> simp [should_emit_marshaller]

/-- C8: generation is deterministic — the writer pass is a pure function
of the configuration plus inventory, so equal inputs produce the identical
emission sequence. -/
theorem C8_generation_deterministic (cfg1 cfg2 : Interop) (h : cfg1 = cfg2) :
    write_all cfg1 = write_all cfg2 := by rw [h]

/-- C8 witness: determinism at the default configuration. -/
theorem C8_generation_deterministic_witness :
    write_all default_interop = write_all default_interop :=
  C8_generation_deterministic default_interop default_interop rfl

/-- C9: an AsyncCallback pattern is never classified custom-marshalled,
whatever its signature contains — the classifier inspects only FnPointer
and NamedCallback signatures. -/
theorem C9_async_callback_not_custom_marshalled (m : Meta) (ps : List (String × Ty)) (r : Ty) :
    is_custom_marshalled (Ty.pattern (.asyncCallback m ps r)) = false := rfl

/-- C10: under the as-declared policy the produced access modifier is
"public", identical to the force-public policy; only force-internal
produces "internal". -/
theorem C10_as_declared_visibility_is_public :
    Visibility.to_access_modifier Visibility.AsDeclared = "public"
    ∧ Visibility.to_access_modifier Visibility.AsDeclared
        = Visibility.to_access_modifier Visibility.ForcePublic
    ∧ (∀ v : Visibility,
        Visibility.to_access_modifier v = "internal" ↔ v = Visibility.ForceInternal) := by
  refine ⟨rfl, rfl, ?_⟩
  intro v
  cases v <;> decide

end CSharpBackend
